import Mathlib

/-
Verification of the KPI analytics core of the BI-Portal repository
(src/services/kpi_service.py, src/services/swot_service.py,
src/services/ai_service.py), shallowly embedded over ℚ.

Python floats are modelled as exact rationals; Python round(x, n)
(round-half-even) is modelled by pyRound0 / pyRoundTo below.
-/

namespace BIPortal

/-- CPython round() to the nearest integer: round-half-even (banker's rounding). -/
def pyRound0 (q : ℚ) : ℤ :=
  if Int.fract q = 1/2 then
    (if ⌊q⌋ % 2 = 0 then ⌊q⌋ else ⌊q⌋ + 1)
  else
    round q

/-- CPython round(x, n): round-half-even at n decimal digits. -/
def pyRoundTo (n : ℕ) (q : ℚ) : ℚ := (pyRound0 (q * 10 ^ n) : ℚ) / 10 ^ n

lemma pyRound0_of_between (m : ℤ) (q : ℚ) (hl : (m : ℚ) - 1/2 < q) (hr : q < (m : ℚ) + 1/2) :
    pyRound0 q = m := by
  have hfr : Int.fract q ≠ 1/2 := by
    intro h
    have hq : q = (⌊q⌋ : ℚ) + 1/2 := by
      have := Int.fract_add_floor q
      rw [h] at this
      linarith
    have h1' : m - 1 < ⌊q⌋ := by
      have h1 : (m : ℚ) - 1 < (⌊q⌋ : ℚ) := by linarith
      exact_mod_cast h1
    have h2' : ⌊q⌋ < m := by
      have h2 : ((⌊q⌋ : ℚ)) < m := by linarith
      exact_mod_cast h2
    omega
  have hround : round q = m := by
    rw [round_eq]
    apply Int.floor_eq_iff.mpr
    refine ⟨by linarith, by linarith⟩
  rw [pyRound0, if_neg hfr, hround]

lemma pyRound0_of_half (m : ℤ) (q : ℚ) (h : q = (m : ℚ) + 1/2) :
    pyRound0 q = if m % 2 = 0 then m else m + 1 := by
  have hf : ⌊q⌋ = m := by
    apply Int.floor_eq_iff.mpr
    refine ⟨by rw [h]; linarith, by rw [h]; linarith⟩
  have hfr : Int.fract q = 1/2 := by
    rw [Int.fract, hf, h]; ring
  rw [pyRound0, if_pos hfr, hf]

lemma pyRoundTo_of_between (n : ℕ) (q : ℚ) (m : ℤ)
    (hl : (m : ℚ) - 1/2 < q * 10 ^ n) (hr : q * 10 ^ n < (m : ℚ) + 1/2) :
    pyRoundTo n q = (m : ℚ) / 10 ^ n := by
  rw [pyRoundTo, pyRound0_of_between m _ hl hr]

lemma pyRound0_le (q : ℚ) : (pyRound0 q : ℚ) ≤ q + 1/2 := by
  rw [pyRound0]
  split_ifs with h1 h2
  · have hd : Int.fract q = q - ⌊q⌋ := rfl
    rw [hd] at h1
    push_cast
    linarith
  · have hd : Int.fract q = q - ⌊q⌋ := rfl
    rw [hd] at h1
    push_cast
    linarith
  · have hb := abs_sub_round q
    rw [abs_le] at hb
    linarith [hb.1, hb.2]

lemma le_pyRound0 (q : ℚ) : q - 1/2 ≤ (pyRound0 q : ℚ) := by
  rw [pyRound0]
  split_ifs with h1 h2
  · have hd : Int.fract q = q - ⌊q⌋ := rfl
    rw [hd] at h1
    push_cast
    linarith
  · have hd : Int.fract q = q - ⌊q⌋ := rfl
    rw [hd] at h1
    push_cast
    linarith
  · have hb := abs_sub_round q
    rw [abs_le] at hb
    linarith [hb.1, hb.2]

lemma pyRound0_mono {a b : ℚ} (hab : a ≤ b) : pyRound0 a ≤ pyRound0 b := by
  by_contra hlt
  push_neg at hlt
  have h1 : (pyRound0 b : ℚ) + 1 ≤ (pyRound0 a : ℚ) := by
    exact_mod_cast Int.add_one_le_iff.mpr hlt
  have h2 := pyRound0_le a
  have h3 := le_pyRound0 b
  have hba : b ≤ a := by linarith
  have heq : a = b := le_antisymm hab hba
  rw [heq] at hlt
  exact absurd hlt (lt_irrefl _)

lemma pyRoundTo_mono (n : ℕ) {a b : ℚ} (hab : a ≤ b) : pyRoundTo n a ≤ pyRoundTo n b := by
  rw [pyRoundTo, pyRoundTo]
  have hm : pyRound0 (a * 10 ^ n) ≤ pyRound0 (b * 10 ^ n) :=
    pyRound0_mono (mul_le_mul_of_nonneg_right hab (by positivity))
  have hm' : ((pyRound0 (a * 10 ^ n) : ℚ)) ≤ (pyRound0 (b * 10 ^ n) : ℚ) := by exact_mod_cast hm
  have hinv : (0:ℚ) ≤ (10 ^ n)⁻¹ := by positivity
  have hfin := mul_le_mul_of_nonneg_right hm' hinv
  simpa [div_eq_mul_inv] using hfin

lemma pyRound0_zero : pyRound0 0 = 0 := by
  rw [pyRound0_of_between 0 0 (by norm_num) (by norm_num)]

lemma pyRoundTo_zero (n : ℕ) : pyRoundTo n 0 = 0 := by
  rw [pyRoundTo, zero_mul, pyRound0_zero]
  norm_num

/-- The health status strings of kpi_service.py as a closed enum. -/
inductive Status
  | GREEN
  | YELLOW
  | RED
  | NEUTRAL
deriving DecidableEq

/-- The trend direction strings of kpi_service.py as a closed enum. -/
inductive Direction
  | UP
  | DOWN
  | STABLE
deriving DecidableEq

/-- The dict returned by calculate_kpi_health.  The target == 0 branch carries
no gap / gap_pct keys, hence the Option fields. -/
structure HealthRec where
  status : Status
  color : String
  label : String
  pct : ℚ
  gap : Option ℚ
  gap_pct : Option ℚ
deriving DecidableEq

/-- kpi_service.calculate_kpi_health. -/
def calculate_kpi_health (value target : ℚ) : HealthRec :=
  if target = 0 then
    { status := Status.NEUTRAL, color := "#6B7280", label := "No Target",
      pct := 0, gap := none, gap_pct := none }
  else if value ≥ target then
    { status := Status.GREEN, color := "#22C55E", label := "On Target",
      pct := pyRoundTo 1 (value / target * 100),
      gap := some (pyRoundTo 2 (target - value)),
      gap_pct := some (if target ≠ 0 then pyRoundTo 1 ((target - value) / target * 100) else 0) }
  else if value ≥ target * (90/100) then
    { status := Status.YELLOW, color := "#F59E0B", label := "Near Target",
      pct := pyRoundTo 1 (value / target * 100),
      gap := some (pyRoundTo 2 (target - value)),
      gap_pct := some (if target ≠ 0 then pyRoundTo 1 ((target - value) / target * 100) else 0) }
  else
    { status := Status.RED, color := "#EF4444", label := "Below Target",
      pct := pyRoundTo 1 (value / target * 100),
      gap := some (pyRoundTo 2 (target - value)),
      gap_pct := some (if target ≠ 0 then pyRoundTo 1 ((target - value) / target * 100) else 0) }

/-- icon_map of calculate_kpi_trend. -/
def icon_map : Direction → String
  | Direction.UP => "↑"
  | Direction.DOWN => "↓"
  | Direction.STABLE => "→"

/-- color_map of calculate_kpi_trend. -/
def color_map : Direction → String
  | Direction.UP => "#22C55E"
  | Direction.DOWN => "#EF4444"
  | Direction.STABLE => "#6B7280"

/-- The dict returned by calculate_kpi_trend. -/
structure TrendRec where
  direction : Direction
  change_pct : ℚ
  change_abs : ℚ
  icon : String
  color : String
deriving DecidableEq

/-- kpi_service.calculate_kpi_trend. -/
def calculate_kpi_trend (value previous_value : ℚ) : TrendRec :=
  let dc : Direction × ℚ :=
    if previous_value = 0 then
      (Direction.STABLE, 0)
    else
      let change_pct := (value - previous_value) / |previous_value| * 100
      if value > previous_value then (Direction.UP, change_pct)
      else if value < previous_value then (Direction.DOWN, change_pct)
      else (Direction.STABLE, change_pct)
  { direction := dc.1,
    change_pct := pyRoundTo 1 dc.2,
    change_abs := pyRoundTo 2 (value - previous_value),
    icon := icon_map dc.1,
    color := color_map dc.1 }

/-- A Python value as seen by float() coercion: either a number, a string that
float() parses to a number, or a value float() raises on (non-numeric string,
None, ...).  The `bad` payload is the value's str() rendering. -/
inductive PyVal
  | num (q : ℚ)
  | numStr (s : String) (q : ℚ)
  | bad (s : String)
deriving DecidableEq

/-- Python float(v): some on success, none when float() raises. -/
def pyFloat : PyVal → Option ℚ
  | PyVal.num q => some q
  | PyVal.numStr _ q => some q
  | PyVal.bad _ => none

/-- Python str(v), used only on values that fail float() coercion. -/
def PyVal.strRend : PyVal → String
  | PyVal.num _ => ""
  | PyVal.numStr s _ => s
  | PyVal.bad s => s

/-- A raw KPI dict as supplied by the caller: the keys the services read,
each possibly absent, plus any other preserved fields. -/
structure RawKpi where
  name : Option String
  value : Option PyVal
  target : Option PyVal
  previousValue : Option PyVal
  extra : List (String × PyVal)
deriving DecidableEq

/-- float(kpi.get(key, default)) — missing key coerces the numeric default. -/
def getFloat (v : Option PyVal) (dflt : ℚ) : Option ℚ :=
  match v with
  | none => some dflt
  | some v => pyFloat v

/-- The three coercions of enrich_kpis, in source order; none means the
try-block raised ('previousValue' defaults to the already-coerced value). -/
def kpiFloats (kpi : RawKpi) : Option (ℚ × ℚ × ℚ) := do
  let value ← getFloat kpi.value 0
  let target ← getFloat kpi.target 0
  let previous ← getFloat kpi.previousValue value
  pure (value, target, previous)

/-- The health dict attached by enrich_kpis: the full calculate_kpi_health
dict on success, or the two-key NEUTRAL fallback dict of the except branch. -/
inductive HealthOut
  | ok (h : HealthRec)
  | coerceFail
deriving DecidableEq

/-- The trend dict attached by enrich_kpis: the full calculate_kpi_trend
dict on success, or the one-key STABLE fallback dict of the except branch. -/
inductive TrendOut
  | ok (t : TrendRec)
  | coerceFail
deriving DecidableEq

/-- An enriched KPI dict: the original fields (value/target/previousValue
overwritten by their coerced floats on success) plus health and trend. -/
structure EnrichedKpi where
  name : Option String
  value : Option PyVal
  target : Option PyVal
  previousValue : Option PyVal
  extra : List (String × PyVal)
  health : HealthOut
  trend : TrendOut
deriving DecidableEq

/-- The loop body of enrich_kpis for a single KPI. -/
def enrichOne (kpi : RawKpi) : EnrichedKpi :=
  match kpiFloats kpi with
  | some (value, target, previous) =>
      { name := kpi.name,
        value := some (PyVal.num value),
        target := some (PyVal.num target),
        previousValue := some (PyVal.num previous),
        extra := kpi.extra,
        health := HealthOut.ok (calculate_kpi_health value target),
        trend := TrendOut.ok (calculate_kpi_trend value previous) }
  | none =>
      { name := kpi.name,
        value := kpi.value,
        target := kpi.target,
        previousValue := kpi.previousValue,
        extra := kpi.extra,
        health := HealthOut.coerceFail,
        trend := TrendOut.coerceFail }

/-- kpi_service.enrich_kpis. -/
def enrich_kpis : List RawKpi → List EnrichedKpi
  | [] => []
  | kpi :: rest => enrichOne kpi :: enrich_kpis rest

/-- kpi.get('health', ...).get('status', ...): status is present in both
possible health dicts. -/
def EnrichedKpi.healthStatus (k : EnrichedKpi) : Status :=
  match k.health with
  | HealthOut.ok h => h.status
  | HealthOut.coerceFail => Status.NEUTRAL

/-- health.get('pct', dflt). -/
def EnrichedKpi.healthPctD (k : EnrichedKpi) (dflt : ℚ) : ℚ :=
  match k.health with
  | HealthOut.ok h => h.pct
  | HealthOut.coerceFail => dflt

/-- health.get('gap', dflt). -/
def EnrichedKpi.healthGapD (k : EnrichedKpi) (dflt : ℚ) : ℚ :=
  match k.health with
  | HealthOut.ok h => h.gap.getD dflt
  | HealthOut.coerceFail => dflt

/-- health.get('gap_pct', dflt). -/
def EnrichedKpi.healthGapPctD (k : EnrichedKpi) (dflt : ℚ) : ℚ :=
  match k.health with
  | HealthOut.ok h => h.gap_pct.getD dflt
  | HealthOut.coerceFail => dflt

/-- trend.get('direction', ...): direction is present in both possible
trend dicts. -/
def EnrichedKpi.trendDirection (k : EnrichedKpi) : Direction :=
  match k.trend with
  | TrendOut.ok t => t.direction
  | TrendOut.coerceFail => Direction.STABLE

/-- trend.get('change_pct', dflt). -/
def EnrichedKpi.trendChangePctD (k : EnrichedKpi) (dflt : ℚ) : ℚ :=
  match k.trend with
  | TrendOut.ok t => t.change_pct
  | TrendOut.coerceFail => dflt

/-- kpi.get('value', 0) as a Python value. -/
def EnrichedKpi.valueV (k : EnrichedKpi) : PyVal := k.value.getD (PyVal.num 0)

/-- kpi.get('target', 0) as a Python value. -/
def EnrichedKpi.targetV (k : EnrichedKpi) : PyVal := k.target.getD (PyVal.num 0)

/-- The numeric reading of kpi.get('value', 0); on every code path that uses
it arithmetically the enrichment succeeded, so the value is a float. -/
def EnrichedKpi.valueQ (k : EnrichedKpi) : ℚ := (pyFloat k.valueV).getD 0

/-- The numeric reading of kpi.get('target', 0). -/
def EnrichedKpi.targetQ (k : EnrichedKpi) : ℚ := (pyFloat k.targetV).getD 0

/-- The dict returned by get_dashboard_kpi_summary; enriched_kpis is absent
from the empty-input dict, hence the Option. -/
structure KpiSummary where
  total : ℕ
  green : ℕ
  yellow : ℕ
  red : ℕ
  score : ℚ
  label : String
  enriched_kpis : Option (List EnrichedKpi)
deriving DecidableEq

/-- sum(1 for k in l if k['health']['status'] == s). -/
def countStatus (s : Status) (l : List EnrichedKpi) : ℕ :=
  l.countP (fun k => decide (k.healthStatus = s))

/-- kpi_service.get_dashboard_kpi_summary. -/
def get_dashboard_kpi_summary (kpis : List RawKpi) : KpiSummary :=
  if kpis = [] then
    { total := 0, green := 0, yellow := 0, red := 0, score := 0,
      label := "No Data", enriched_kpis := none }
  else
    let enriched := enrich_kpis kpis
    let total := enriched.length
    let green := countStatus Status.GREEN enriched
    let yellow := countStatus Status.YELLOW enriched
    let red := countStatus Status.RED enriched
    let score := pyRoundTo 1 (((green : ℚ) * 100 + (yellow : ℚ) * 70 + (red : ℚ) * 30)
      / ((total : ℚ) * 100) * 100)
    let label :=
      if score ≥ 80 then "Healthy"
      else if score ≥ 60 then "Moderate"
      else "At Risk"
    { total := total, green := green, yellow := yellow, red := red,
      score := score, label := label, enriched_kpis := some enriched }

/-- Decimal digits of a natural number, zero-padded on the left to n digits. -/
def padZeros (n : ℕ) (a : ℕ) : String :=
  let s := toString a
  String.mk (List.replicate (n - s.length) '0') ++ s

/-- Python format spec ":.nf": fixed-point with n decimals, round-half-even. -/
def fmtFixed (n : ℕ) (q : ℚ) : String :=
  let m := pyRound0 (q * 10 ^ n)
  let sign := if m < 0 then "-" else ""
  let a := m.natAbs
  if n = 0 then sign ++ toString a
  else sign ++ toString (a / 10 ^ n) ++ "." ++ padZeros n (a % 10 ^ n)

/-- Python format spec ":+.1f": one decimal with an explicit sign. -/
def fmtSigned1 (q : ℚ) : String :=
  if pyRound0 (q * 10) < 0 then fmtFixed 1 q else "+" ++ fmtFixed 1 q

/-- The numeric branch of swot_service._fmt (float() succeeded on the value). -/
def fmtNum (q : ℚ) : String :=
  if q ≥ 1000000 then "₹" ++ fmtFixed 1 (q / 1000000) ++ "M"
  else if q ≥ 1000 then "₹" ++ fmtFixed 1 (q / 1000) ++ "K"
  else if q.den = 1 then toString q.num
  else fmtFixed 2 q

/-- swot_service._fmt: human-readable number formatting, falling back to
str(value) when float() coercion fails. -/
def pyFmt (v : PyVal) : String :=
  match pyFloat v with
  | some q => fmtNum q
  | none => v.strRend

/-- Python str.lower() on a direction string. -/
def Direction.lower : Direction → String
  | Direction.UP => "up"
  | Direction.DOWN => "down"
  | Direction.STABLE => "stable"

/-- The direction as its Python string. -/
def Direction.asStr : Direction → String
  | Direction.UP => "UP"
  | Direction.DOWN => "DOWN"
  | Direction.STABLE => "STABLE"

/-- The STRENGTH sentence of generate_swot. -/
def strengthSentence (k : EnrichedKpi) : String :=
  let name := k.name.getD "KPI"
  let pct := k.healthPctD 0
  let over := pct - 100
  let d := k.trendDirection
  let change_pct := k.trendChangePctD 0
  name ++ " is performing at " ++ fmtFixed 1 pct ++ "% of target (" ++
    pyFmt k.valueV ++ " vs target " ++ pyFmt k.targetV ++ ")" ++
    (if over > 0 then ", exceeding by " ++ fmtFixed 1 over ++ "%" else "") ++
    (if d ≠ Direction.STABLE then
      " with " ++ d.lower ++ " trend (" ++ fmtSigned1 change_pct ++ "%)" else "")

/-- The WEAKNESS sentence of generate_swot. -/
def weaknessSentence (k : EnrichedKpi) : String :=
  let name := k.name.getD "KPI"
  let pct := k.healthPctD 0
  let gap := k.healthGapD 0
  let gap_pct := k.healthGapPctD 0
  let d := k.trendDirection
  let change_pct := k.trendChangePctD 0
  name ++ " is at " ++ fmtFixed 1 pct ++ "% of target — gap of " ++
    fmtNum gap ++ " (" ++ fmtFixed 1 gap_pct ++ "% shortfall). Trend: " ++
    d.lower ++ " (" ++ fmtSigned1 change_pct ++ "%)"

/-- The OPPORTUNITY sentence of generate_swot. -/
def opportunitySentence (k : EnrichedKpi) : String :=
  let name := k.name.getD "KPI"
  let pct := k.healthPctD 0
  let change_pct := k.trendChangePctD 0
  name ++ " is improving (" ++ fmtSigned1 change_pct ++ "% vs prior period) but still at " ++
    fmtFixed 1 pct ++ "% of target. Continue momentum to close " ++
    fmtNum (k.targetQ - k.valueQ) ++ " gap."

/-- The THREAT sentence of generate_swot. -/
def threatSentence (k : EnrichedKpi) : String :=
  let name := k.name.getD "KPI"
  let pct := k.healthPctD 0
  let change_pct := k.trendChangePctD 0
  name ++ " is declining (" ++ fmtSigned1 change_pct ++ "%) and at only " ++
    fmtFixed 1 pct ++ "% of target. Immediate intervention required — current: " ++
    pyFmt k.valueV ++ ", target: " ++ pyFmt k.targetV ++ "."

/-- The classification loop of generate_swot, one pass building the four
sentence lists in input order.  The weakness branch is an elif of the
strength branch in the source, encoded by the extra status ≠ GREEN guard. -/
def swotLoop : List EnrichedKpi → List String × List String × List String × List String
  | [] => ([], [], [], [])
  | k :: rest =>
    let acc := swotLoop rest
    let st := k.healthStatus
    let d := k.trendDirection
    let s := if st = Status.GREEN then strengthSentence k :: acc.1 else acc.1
    let w := if st ≠ Status.GREEN ∧ st = Status.RED ∧ d ≠ Direction.UP then
        weaknessSentence k :: acc.2.1 else acc.2.1
    let o := if (st = Status.YELLOW ∨ st = Status.RED) ∧ d = Direction.UP then
        opportunitySentence k :: acc.2.2.1 else acc.2.2.1
    let t := if st = Status.RED ∧ d = Direction.DOWN then
        threatSentence k :: acc.2.2.2 else acc.2.2.2
    (s, w, o, t)

/-- The dict returned by generate_swot; health_score and kpi_counts are absent
from the empty-input dict, hence the Options.  kpi_counts is (total, green, red). -/
structure SwotResult where
  strengths : List String
  weaknesses : List String
  opportunities : List String
  threats : List String
  summary : String
  health_score : Option ℤ
  kpi_counts : Option (ℕ × ℕ × ℕ)
deriving DecidableEq

/-- swot_service.generate_swot. -/
def generate_swot (dashboard_title department : String) (kpis : List RawKpi) : SwotResult :=
  if kpis = [] then
    { strengths := [], weaknesses := [], opportunities := [], threats := [],
      summary := "No KPI data available for SWOT analysis.",
      health_score := none, kpi_counts := none }
  else
    let enriched := enrich_kpis kpis
    let lists := swotLoop enriched
    let strengths := lists.1
    let weaknesses := lists.2.1
    let opportunities := lists.2.2.1
    let threats := lists.2.2.2
    let total := enriched.length
    let green_count := countStatus Status.GREEN enriched
    let red_count := countStatus Status.RED enriched
    let summary_parts : List String :=
      (if strengths ≠ [] then
        [toString strengths.length ++ " of " ++ toString total ++ " KPIs are on or above target"]
       else []) ++
      (if weaknesses ≠ [] then
        [toString weaknesses.length ++ " KPIs show critical underperformance"]
       else []) ++
      (if opportunities ≠ [] then
        [toString opportunities.length ++ " KPIs are showing improvement trends"]
       else []) ++
      (if threats ≠ [] then
        [toString threats.length ++ " KPIs present immediate risk"]
       else [])
    let health_score : ℤ :=
      if total > 0 then pyRound0 ((green_count : ℚ) / (total : ℚ) * 100) else 0
    let summary := department ++ " department — " ++ dashboard_title ++ ": " ++
      String.intercalate ". " summary_parts ++ ". Overall health: " ++
      toString health_score ++ "%."
    { strengths := if strengths ≠ [] then strengths
        else ["No KPIs currently exceeding targets in " ++ department],
      weaknesses := if weaknesses ≠ [] then weaknesses
        else ["No critical underperformers identified in " ++ department],
      opportunities := if opportunities ≠ [] then opportunities
        else ["No significant improvement trends detected yet in " ++ department],
      threats := if threats ≠ [] then threats
        else ["No declining KPIs below threshold in " ++ department],
      summary := summary,
      health_score := some health_score,
      kpi_counts := some (total, green_count, red_count) }

/-- kpi['name']: direct dict indexing, none models the Python KeyError. -/
def nameKey (k : EnrichedKpi) : Option String := k.name

/-- Python min(l, key=lambda x: x.get('health', ...).get('pct', 100)):
first element with minimal key; none on the empty list. -/
def minPctKpi : List EnrichedKpi → Option EnrichedKpi
  | [] => none
  | x :: xs => some (xs.foldl (fun b a => if a.healthPctD 100 < b.healthPctD 100 then a else b) x)

/-- Python max(l, key=lambda x: x.get('trend', ...).get('change_pct', 0)):
first element with maximal key; none on the empty list. -/
def maxChangeKpi : List EnrichedKpi → Option EnrichedKpi
  | [] => none
  | x :: xs => some (xs.foldl (fun b a => if a.trendChangePctD 0 > b.trendChangePctD 0 then a else b) x)

/-- The executive brief dict returned by the summary generators. -/
structure Brief where
  executive_summary : String
  risk_analysis : String
  strategic_recommendation : String
  overall_rating : String
  priority_action : String
  source : String
deriving DecidableEq

/-- The green bullet of the rule-based executive summary: present only when
GREEN KPIs exist; indexes the first two KPIs' 'name' keys (none = KeyError). -/
def greenSummaryPart (green : List EnrichedKpi) : Option (List String) :=
  if green ≠ [] then do
    let ns ← (green.take 2).mapM nameKey
    pure [toString green.length ++ " KPIs are on target: " ++
      String.intercalate ", " ns ++ "."]
  else pure []

/-- The red bullet of the rule-based executive summary. -/
def redSummaryPart (red : List EnrichedKpi) : Option (List String) :=
  if red ≠ [] then do
    let ns ← (red.take 2).mapM nameKey
    pure [toString red.length ++ " KPIs require attention: " ++
      String.intercalate ", " ns ++ "."]
  else pure []

/-- One line of the risk analysis, for a declining-or-red KPI. -/
def riskLine (k : EnrichedKpi) : Option String := do
  let n ← nameKey k
  pure (n ++ " at " ++ fmtFixed 1 (k.healthPctD 0) ++ "% of target, trend: " ++
    k.trendDirection.asStr)

/-- The recovery recommendation built from the worst RED KPI, when one exists. -/
def worstRecPart (red : List EnrichedKpi) : Option (List String) :=
  match minPctKpi red with
  | some worst => do
      let n ← nameKey worst
      pure ["Prioritise " ++ n ++ " recovery — currently at " ++
        fmtFixed 1 (worst.healthPctD 0) ++ "% of target."]
  | none => pure []

/-- The momentum recommendation built from the fastest-improving KPI. -/
def bestRecPart (improving : List EnrichedKpi) : Option (List String) :=
  match maxChangeKpi improving with
  | some best => do
      let n ← nameKey best
      pure ["Accelerate " ++ n ++ " momentum (+" ++
        fmtFixed 1 (best.trendChangePctD 0) ++ "%)."]
  | none => pure []

/-- The priority action: escalate red[0], or maintain when nothing is red. -/
def priorityLine (red : List EnrichedKpi) (total : ℕ) : Option String :=
  match red with
  | r :: _ => do
      let n ← nameKey r
      pure ("Escalate " ++ n ++ " to management.")
  | [] => pure ("Maintain current performance across " ++ toString total ++ " KPIs.")

/-- ai_service._rule_based_summary.  The result is an Option because the
source indexes kpi['name'] directly: a green/red/declining/improving KPI
with no 'name' key raises KeyError, modelled as none. -/
def _rule_based_summary (title department : String) (kpis : List EnrichedKpi)
    (swot : SwotResult) (commentary : String) : Option Brief :=
  let total := kpis.length
  if total = 0 then
    some { executive_summary := "No KPI data available for analysis.",
           risk_analysis := "Cannot assess risk without data.",
           strategic_recommendation := "Add KPI data to enable analysis.",
           overall_rating := "Critical",
           priority_action := "Add KPI targets and actuals.",
           source := "Rule-Based Engine" }
  else
    let green := kpis.filter (fun k => decide (k.healthStatus = Status.GREEN))
    let red := kpis.filter (fun k => decide (k.healthStatus = Status.RED))
    let declining := kpis.filter (fun k => decide (k.trendDirection = Direction.DOWN))
    let improving := kpis.filter (fun k => decide (k.trendDirection = Direction.UP))
    let health_score := swot.health_score.getD 0
    let rating :=
      if health_score ≥ 80 then "Excellent"
      else if health_score ≥ 60 then "Good"
      else if health_score ≥ 40 then "Moderate"
      else "Critical"
    do
      let greenPart ← greenSummaryPart green
      let redPart ← redSummaryPart red
      let summary_parts := ["The " ++ department ++ " department\x27s " ++ title ++
        " shows a health score of " ++ toString health_score ++ "%."] ++ greenPart ++ redPart
      let risk_parts ← ((declining ++ red).take 3).mapM riskLine
      let risk :=
        if risk_parts ≠ [] then "Risk areas: " ++ String.intercalate "; " risk_parts ++ "."
        else "No critical risks in " ++ department ++ "."
      let rec1 ← worstRecPart red
      let rec2 ← bestRecPart improving
      let rec_parts := rec1 ++ rec2
      let priority ← priorityLine red total
      pure { executive_summary := String.intercalate " " summary_parts,
             risk_analysis := risk,
             strategic_recommendation :=
               if rec_parts ≠ [] then String.intercalate " | " rec_parts
               else "Maintain trajectory in " ++ department ++ ".",
             overall_rating := rating,
             priority_action := priority,
             source := "Rule-Based Engine (set ANTHROPIC_API_KEY for AI-powered insights)" }

/-- ai_service.generate_ai_summary, as executed when ANTHROPIC_API_KEY is not
configured: the external-API branch is skipped and the rule-based fallback runs
on the enriched KPIs and the SWOT result (whose try-wrappers cannot raise in
this model since enrich_kpis and generate_swot are total).  none models a
Python exception escaping the call (KeyError on a missing 'name'). -/
def generate_ai_summary (dashboard_title department : String) (kpis : List RawKpi)
    (commentary : String) : Option Brief :=
  let enriched := enrich_kpis kpis
  let swot := generate_swot dashboard_title department kpis
  _rule_based_summary dashboard_title department enriched swot commentary

/-- Claim C1: calculate_kpi_health returns NEUTRAL with pct = 0 when target = 0;
otherwise GREEN when value ≥ target, else YELLOW when value ≥ 0.9·target, else
RED — the four cases are mutually exclusive and exhaustive (each status holds
exactly under its stated condition). -/
theorem health_status_cases (value target : ℚ) :
    (target = 0 → (calculate_kpi_health value target).status = Status.NEUTRAL ∧
      (calculate_kpi_health value target).pct = 0) ∧
    ((calculate_kpi_health value target).status = Status.NEUTRAL ↔ target = 0) ∧
    ((calculate_kpi_health value target).status = Status.GREEN ↔
      target ≠ 0 ∧ value ≥ target) ∧
    ((calculate_kpi_health value target).status = Status.YELLOW ↔
      target ≠ 0 ∧ ¬value ≥ target ∧ value ≥ (9/10) * target) ∧
    ((calculate_kpi_health value target).status = Status.RED ↔
      target ≠ 0 ∧ ¬value ≥ target ∧ ¬value ≥ (9/10) * target) := by
  have h90 : target * (90/100) = (9/10) * target := by ring
  unfold calculate_kpi_health
  split_ifs with h1 h2 h3 <;> rw [h90] at * <;> simp_all

/-- Witness for C1 at target = 0 (NEUTRAL, pct 0) and at a YELLOW point. -/
theorem health_status_cases_witness :
    ((calculate_kpi_health 5 0).status = Status.NEUTRAL ∧
      (calculate_kpi_health 5 0).pct = 0) ∧
    (calculate_kpi_health 95 100).status = Status.YELLOW := by
  refine ⟨(health_status_cases 5 0).1 rfl, ?_⟩
  exact ((health_status_cases 95 100).2.2.2.1).mpr ⟨by norm_num, by norm_num, by norm_num⟩

/-- Claim C2 counterexample: the change_pct returned for value = 1,
previousValue = 3 is the 1-decimal rounding -66.7, not the exact quotient
(1-3)/|3|·100 = -200/3 the claim states. -/
theorem trend_change_pct_counterexample :
    (calculate_kpi_trend 1 3).change_pct ≠ (1 - 3) / |(3:ℚ)| * 100 := by
  have habs : |(3:ℚ)| = 3 := by norm_num
  have h : (calculate_kpi_trend 1 3).change_pct = pyRoundTo 1 (-200/3) := by
    simp only [calculate_kpi_trend, habs]
    norm_num
  rw [h, habs, pyRoundTo_of_between 1 (-200/3) (-667) (by norm_num) (by norm_num)]
  norm_num

/-- Claim C2 (amended): when previousValue = 0 the trend is STABLE with
change_pct = 0; otherwise change_pct is (value-previousValue)/|previousValue|·100
rounded to 1 decimal, and the direction is UP/DOWN/STABLE exactly as
value >, <, = previousValue. -/
theorem trend_spec (value previous : ℚ) :
    (previous = 0 → (calculate_kpi_trend value previous).direction = Direction.STABLE ∧
      (calculate_kpi_trend value previous).change_pct = 0) ∧
    (previous ≠ 0 →
      (calculate_kpi_trend value previous).change_pct =
        pyRoundTo 1 ((value - previous) / |previous| * 100) ∧
      ((calculate_kpi_trend value previous).direction = Direction.UP ↔ value > previous) ∧
      ((calculate_kpi_trend value previous).direction = Direction.DOWN ↔ value < previous) ∧
      ((calculate_kpi_trend value previous).direction = Direction.STABLE ↔ value = previous)) := by
  unfold calculate_kpi_trend
  split_ifs with h1 h2 h3 <;>
    simp_all [pyRoundTo_zero] <;>
    first
      | linarith
      | (constructor <;> · try intro
                           try linarith)

/-- Witness for C2 at value = 1, previousValue = 3 (DOWN, rounded change). -/
theorem trend_spec_witness :
    (calculate_kpi_trend 1 3).change_pct = pyRoundTo 1 ((1 - 3) / |(3:ℚ)| * 100) ∧
    (calculate_kpi_trend 1 3).direction = Direction.DOWN := by
  have h := (trend_spec 1 3).2 (by norm_num)
  exact ⟨h.1, h.2.2.1.mpr (by norm_num)⟩

lemma enrich_kpis_eq_map (kpis : List RawKpi) : enrich_kpis kpis = kpis.map enrichOne := by
  induction kpis with
  | nil => rfl
  | cons k rest ih => simp [enrich_kpis, ih]

/-- A demo malformed KPI: its value is a non-numeric string, so float() raises. -/
def badKpi : RawKpi :=
  { name := some "Churn", value := some (PyVal.bad "n/a"),
    target := some (PyVal.num 100), previousValue := none, extra := [("unit", PyVal.bad "%")] }

/-- Claim C3: enrich_kpis is total (the only fallible operations are the three
float() coercions, guarded by try/except) and processes entries independently:
it equals the entrywise map of enrichOne, so one malformed entry never affects
the others; an entry whose coercion fails is emitted with the NEUTRAL/STABLE
fallback dicts and all of its original fields intact. -/
theorem enrich_never_raises (kpis : List RawKpi) (k : RawKpi) :
    (enrich_kpis kpis).length = kpis.length ∧
    enrich_kpis kpis = kpis.map enrichOne ∧
    (kpiFloats k = none →
      enrichOne k = { name := k.name, value := k.value, target := k.target,
                      previousValue := k.previousValue, extra := k.extra,
                      health := HealthOut.coerceFail, trend := TrendOut.coerceFail } ∧
      (enrichOne k).healthStatus = Status.NEUTRAL ∧
      (enrichOne k).trendDirection = Direction.STABLE) := by
  refine ⟨?_, enrich_kpis_eq_map kpis, ?_⟩
  · rw [enrich_kpis_eq_map]
    exact List.length_map _ _
  · intro h
    refine ⟨?_, ?_, ?_⟩ <;>
      simp [enrichOne, h, EnrichedKpi.healthStatus, EnrichedKpi.trendDirection]

/-- Witness for C3 at a concrete malformed KPI. -/
theorem enrich_never_raises_witness :
    kpiFloats badKpi = none ∧
    (enrichOne badKpi).healthStatus = Status.NEUTRAL ∧
    (enrichOne badKpi).trendDirection = Direction.STABLE ∧
    (enrichOne badKpi).name = some "Churn" := by
  have h := enrich_never_raises [badKpi] badKpi
  have hf : kpiFloats badKpi = none := rfl
  have hfail := h.2.2 hf
  refine ⟨hf, hfail.2.1, hfail.2.2, ?_⟩
  rw [hfail.1]
  rfl

/-- Claim C9: enrich_kpis maps the empty list to the empty list, preserves
length and order (the i-th output is the enrichment of the i-th input), and
builds each output as a new record that carries over the input's fields. -/
theorem enrich_preserves_order (kpis : List RawKpi) :
    enrich_kpis ([] : List RawKpi) = [] ∧
    (enrich_kpis kpis).length = kpis.length ∧
    (∀ i : ℕ, (enrich_kpis kpis)[i]? = (kpis[i]?).map enrichOne) ∧
    (∀ k : RawKpi, (enrichOne k).name = k.name ∧ (enrichOne k).extra = k.extra) := by
  refine ⟨rfl, ?_, ?_, ?_⟩
  · rw [enrich_kpis_eq_map]
    exact List.length_map _ _
  · intro i
    rw [enrich_kpis_eq_map]
    simp
  · intro k
    unfold enrichOne
    cases h : kpiFloats k <;> simp

lemma enrich_kpis_length (kpis : List RawKpi) : (enrich_kpis kpis).length = kpis.length := by
  rw [enrich_kpis_eq_map]
  exact List.length_map _ _

/-- Claim C4: get_dashboard_kpi_summary of the empty list is exactly the
zeroed No-Data dict (with no enriched_kpis key); for N > 0 entries it returns
total = N, the GREEN/YELLOW/RED counts of the enriched list, score =
(green·100 + yellow·70 + red·30)/(N·100)·100 rounded to 1 decimal, and the
label Healthy / Moderate / At Risk by the ≥80 / ≥60 thresholds on that score. -/
theorem summary_spec (kpis : List RawKpi) :
    get_dashboard_kpi_summary ([] : List RawKpi) =
      { total := 0, green := 0, yellow := 0, red := 0, score := 0,
        label := "No Data", enriched_kpis := none } ∧
    (kpis ≠ [] →
      (get_dashboard_kpi_summary kpis).total = kpis.length ∧
      (get_dashboard_kpi_summary kpis).green = countStatus Status.GREEN (enrich_kpis kpis) ∧
      (get_dashboard_kpi_summary kpis).yellow = countStatus Status.YELLOW (enrich_kpis kpis) ∧
      (get_dashboard_kpi_summary kpis).red = countStatus Status.RED (enrich_kpis kpis) ∧
      (get_dashboard_kpi_summary kpis).score =
        pyRoundTo 1 (((countStatus Status.GREEN (enrich_kpis kpis) : ℚ) * 100 +
          (countStatus Status.YELLOW (enrich_kpis kpis) : ℚ) * 70 +
          (countStatus Status.RED (enrich_kpis kpis) : ℚ) * 30) /
          ((kpis.length : ℚ) * 100) * 100) ∧
      (get_dashboard_kpi_summary kpis).label =
        (if (get_dashboard_kpi_summary kpis).score ≥ 80 then "Healthy"
         else if (get_dashboard_kpi_summary kpis).score ≥ 60 then "Moderate"
         else "At Risk")) := by
  refine ⟨rfl, fun h => ?_⟩
  simp only [get_dashboard_kpi_summary, if_neg h, enrich_kpis_length]
  simp

/-- A demo well-formed KPI record. -/
def demoKpi (n : String) (v t p : ℚ) : RawKpi :=
  { name := some n, value := some (PyVal.num v), target := some (PyVal.num t),
    previousValue := some (PyVal.num p), extra := [] }

/-- The 2-GREEN / 1-YELLOW / 1-RED scenario of the specification. -/
def demo4 : List RawKpi :=
  [demoKpi "A" 100 100 90, demoKpi "B" 120 100 100,
   demoKpi "C" 95 100 95, demoKpi "D" 50 100 60]

/-- Witness for C4: the 4-KPI scenario scores 75.0 with label Moderate. -/
theorem summary_spec_witness :
    (get_dashboard_kpi_summary demo4).score = 75 ∧
    (get_dashboard_kpi_summary demo4).label = "Moderate" := by
  have h := (summary_spec demo4).2 (by simp [demo4])
  have hg : countStatus Status.GREEN (enrich_kpis demo4) = 2 := by
    norm_num [demo4, enrich_kpis, enrichOne, demoKpi, kpiFloats, getFloat, pyFloat,
      countStatus, List.countP, List.countP.go, EnrichedKpi.healthStatus, calculate_kpi_health]
    decide
  have hy : countStatus Status.YELLOW (enrich_kpis demo4) = 1 := by
    norm_num [demo4, enrich_kpis, enrichOne, demoKpi, kpiFloats, getFloat, pyFloat,
      countStatus, List.countP, List.countP.go, EnrichedKpi.healthStatus, calculate_kpi_health]
    decide
  have hr : countStatus Status.RED (enrich_kpis demo4) = 1 := by
    norm_num [demo4, enrich_kpis, enrichOne, demoKpi, kpiFloats, getFloat, pyFloat,
      countStatus, List.countP, List.countP.go, EnrichedKpi.healthStatus, calculate_kpi_health]
    decide
  have hscore : (get_dashboard_kpi_summary demo4).score = 75 := by
    rw [h.2.2.2.2.1, hg, hy, hr]
    have harg : ((2:ℚ) * 100 + (1:ℚ) * 70 + (1:ℚ) * 30) / (((demo4.length : ℚ)) * 100) * 100
        = 75 := by
      norm_num [demo4]
    push_cast
    rw [harg, pyRoundTo_of_between 1 75 750 (by norm_num) (by norm_num)]
    norm_num
  refine ⟨hscore, ?_⟩
  rw [h.2.2.2.2.2, hscore]
  norm_num

lemma summary_score_eq (kpis : List RawKpi) (h : kpis ≠ []) :
    (get_dashboard_kpi_summary kpis).score =
      pyRoundTo 1 (((countStatus Status.GREEN (enrich_kpis kpis) : ℚ) * 100 +
        (countStatus Status.YELLOW (enrich_kpis kpis) : ℚ) * 70 +
        (countStatus Status.RED (enrich_kpis kpis) : ℚ) * 30) /
        ((kpis.length : ℚ) * 100) * 100) := by
  simp only [get_dashboard_kpi_summary, if_neg h, enrich_kpis_length]

lemma countStatus_enrich_middle (s : Status) (l1 l2 : List RawKpi) (x : RawKpi) :
    countStatus s (enrich_kpis (l1 ++ x :: l2)) =
      countStatus s (enrich_kpis l1) +
      (if (enrichOne x).healthStatus = s then 1 else 0) +
      countStatus s (enrich_kpis l2) := by
  simp only [countStatus, enrich_kpis_eq_map, List.map_append, List.map_cons,
    List.countP_append, List.countP_cons]
  by_cases h : (enrichOne x).healthStatus = s <;> simp [h] <;> omega

/-- Claim C8: replacing one KPI whose health classifies RED by one classifying
YELLOW or GREEN, all other KPIs fixed, never decreases the portfolio score of
get_dashboard_kpi_summary. -/
theorem score_monotone_red_to_better (l1 l2 : List RawKpi) (a b : RawKpi)
    (ha : (enrichOne a).healthStatus = Status.RED)
    (hb : (enrichOne b).healthStatus = Status.YELLOW ∨
      (enrichOne b).healthStatus = Status.GREEN) :
    (get_dashboard_kpi_summary (l1 ++ a :: l2)).score ≤
      (get_dashboard_kpi_summary (l1 ++ b :: l2)).score := by
  have hne1 : l1 ++ a :: l2 ≠ [] := by simp
  have hne2 : l1 ++ b :: l2 ≠ [] := by simp
  rw [summary_score_eq _ hne1, summary_score_eq _ hne2]
  apply pyRoundTo_mono
  have hlen : (l1 ++ b :: l2).length = (l1 ++ a :: l2).length := by simp
  rw [hlen]
  have hnpos : (0:ℚ) < ((l1 ++ a :: l2).length : ℚ) * 100 := by
    have h1 : 0 < (l1 ++ a :: l2).length := by simp
    have h2 : (0:ℚ) < ((l1 ++ a :: l2).length : ℚ) := by exact_mod_cast h1
    linarith
  rcases hb with hb | hb <;>
    (rw [countStatus_enrich_middle Status.GREEN l1 l2 a,
        countStatus_enrich_middle Status.YELLOW l1 l2 a,
        countStatus_enrich_middle Status.RED l1 l2 a,
        countStatus_enrich_middle Status.GREEN l1 l2 b,
        countStatus_enrich_middle Status.YELLOW l1 l2 b,
        countStatus_enrich_middle Status.RED l1 l2 b,
        ha, hb]
     simp only [reduceIte]
     refine mul_le_mul_of_nonneg_right ((div_le_div_right hnpos).mpr ?_) (by norm_num)
     push_cast
     linarith)

/-- Witness for C8: replacing a lone RED KPI by a GREEN one raises the score. -/
theorem score_monotone_red_to_better_witness :
    (get_dashboard_kpi_summary [demoKpi "R" 50 100 50]).score ≤
      (get_dashboard_kpi_summary [demoKpi "G" 120 100 100]).score := by
  have ha : (enrichOne (demoKpi "R" 50 100 50)).healthStatus = Status.RED := by
    norm_num [enrichOne, demoKpi, kpiFloats, getFloat, pyFloat,
      EnrichedKpi.healthStatus, calculate_kpi_health]
  have hb : (enrichOne (demoKpi "G" 120 100 100)).healthStatus = Status.GREEN := by
    norm_num [enrichOne, demoKpi, kpiFloats, getFloat, pyFloat,
      EnrichedKpi.healthStatus, calculate_kpi_health]
  exact score_monotone_red_to_better [] [] _ _ ha (Or.inr hb)

/-- A KPI with target 0: enrichment classifies it NEUTRAL. -/
def neutralKpi : RawKpi := demoKpi "N" 0 0 0

/-- A KPI far below target: enrichment classifies it RED. -/
def redKpi : RawKpi := demoKpi "R" 0 100 0

lemma neutralKpi_status : (enrichOne neutralKpi).healthStatus = Status.NEUTRAL := by
  norm_num [enrichOne, neutralKpi, demoKpi, kpiFloats, getFloat, pyFloat,
    EnrichedKpi.healthStatus, calculate_kpi_health]

lemma redKpi_status : (enrichOne redKpi).healthStatus = Status.RED := by
  norm_num [enrichOne, redKpi, demoKpi, kpiFloats, getFloat, pyFloat,
    EnrichedKpi.healthStatus, calculate_kpi_health]

lemma countStatus_nil (s : Status) : countStatus s (enrich_kpis []) = 0 := rfl

lemma countStatus_enrich_append_one (s : Status) (l : List RawKpi) (x : RawKpi) :
    countStatus s (enrich_kpis (l ++ [x])) =
      countStatus s (enrich_kpis l) + (if (enrichOne x).healthStatus = s then 1 else 0) := by
  have h := countStatus_enrich_middle s l [] x
  simpa using h

lemma countStatus_replicate (s : Status) (n : ℕ) (k : EnrichedKpi) :
    countStatus s (List.replicate n k) = if k.healthStatus = s then n else 0 := by
  induction n with
  | zero => simp [countStatus]
  | succ m ih =>
    rw [List.replicate_succ]
    simp only [countStatus, List.countP_cons] at *
    rw [ih]
    by_cases h : k.healthStatus = s <;> simp [h]

lemma countStatus_eq_zero_of_all (s : Status) (kpis : List RawKpi)
    (hall : ∀ k ∈ kpis, (enrichOne k).healthStatus ≠ s) :
    countStatus s (enrich_kpis kpis) = 0 := by
  rw [countStatus, enrich_kpis_eq_map, List.countP_eq_zero]
  intro e he
  rcases List.mem_map.mp he with ⟨k, hk, rfl⟩
  simpa using hall k hk

/-- Claim C10 (amended): a non-empty KPI list in which every entry classifies
NEUTRAL yields total = N, zero GREEN/YELLOW/RED counts, score 0 and the label
At Risk (not No Data); and appending a NEUTRAL KPI to any non-empty list never
increases the score (it need not strictly lower it: the 1-decimal rounding can
absorb the dilution). -/
theorem neutral_zero_weight (kpis : List RawKpi) (n : RawKpi)
    (hne : kpis ≠ [])
    (hall : ∀ k ∈ kpis, (enrichOne k).healthStatus = Status.NEUTRAL)
    (hn : (enrichOne n).healthStatus = Status.NEUTRAL) :
    ((get_dashboard_kpi_summary kpis).total = kpis.length ∧
     (get_dashboard_kpi_summary kpis).green = 0 ∧
     (get_dashboard_kpi_summary kpis).yellow = 0 ∧
     (get_dashboard_kpi_summary kpis).red = 0 ∧
     (get_dashboard_kpi_summary kpis).score = 0 ∧
     (get_dashboard_kpi_summary kpis).label = "At Risk") ∧
    (∀ l : List RawKpi, l ≠ [] →
      (get_dashboard_kpi_summary (l ++ [n])).score ≤ (get_dashboard_kpi_summary l).score) := by
  constructor
  · have hz : ∀ s : Status, s ≠ Status.NEUTRAL → countStatus s (enrich_kpis kpis) = 0 := by
      intro s hs
      apply countStatus_eq_zero_of_all
      intro k hk
      rw [hall k hk]
      exact fun h => hs h.symm
    have hg := hz Status.GREEN (by simp)
    have hy := hz Status.YELLOW (by simp)
    have hr := hz Status.RED (by simp)
    have hscore : (get_dashboard_kpi_summary kpis).score = 0 := by
      rw [summary_score_eq kpis hne, hg, hy, hr]
      norm_num [pyRoundTo_zero]
    refine ⟨?_, ?_, ?_, ?_, hscore, ?_⟩
    · simp only [get_dashboard_kpi_summary, if_neg hne, enrich_kpis_length]
    · simp only [get_dashboard_kpi_summary, if_neg hne]
      exact hg
    · simp only [get_dashboard_kpi_summary, if_neg hne]
      exact hy
    · simp only [get_dashboard_kpi_summary, if_neg hne]
      exact hr
    · have hlab : (get_dashboard_kpi_summary kpis).label =
          (if (get_dashboard_kpi_summary kpis).score ≥ 80 then "Healthy"
           else if (get_dashboard_kpi_summary kpis).score ≥ 60 then "Moderate"
           else "At Risk") := by
        simp only [get_dashboard_kpi_summary, if_neg hne]
      rw [hlab, hscore]
      norm_num
  · intro l hl
    have hl' : l ++ [n] ≠ [] := by simp
    rw [summary_score_eq _ hl', summary_score_eq _ hl]
    apply pyRoundTo_mono
    rw [countStatus_enrich_append_one Status.GREEN l n,
        countStatus_enrich_append_one Status.YELLOW l n,
        countStatus_enrich_append_one Status.RED l n, hn]
    simp only [reduceIte, Nat.add_zero, List.length_append, List.length_cons,
      List.length_nil]
    have hlen : 0 < l.length := List.length_pos.mpr hl
    have hlenq : (0:ℚ) < (l.length : ℚ) := by exact_mod_cast hlen
    have hW : (0:ℚ) ≤ (countStatus Status.GREEN (enrich_kpis l) : ℚ) * 100 +
        (countStatus Status.YELLOW (enrich_kpis l) : ℚ) * 70 +
        (countStatus Status.RED (enrich_kpis l) : ℚ) * 30 := by positivity
    apply mul_le_mul_of_nonneg_right ?_ (by norm_num : (0:ℚ) ≤ 100)
    apply div_le_div_of_nonneg_left hW (by positivity) ?_
    push_cast
    linarith

/-- Witness for C10: one all-NEUTRAL singleton summary, and appending a
NEUTRAL KPI after a RED one does not raise the score. -/
theorem neutral_zero_weight_witness :
    (get_dashboard_kpi_summary [neutralKpi]).score = 0 ∧
    (get_dashboard_kpi_summary [neutralKpi]).label = "At Risk" ∧
    (get_dashboard_kpi_summary ([redKpi] ++ [neutralKpi])).score ≤
      (get_dashboard_kpi_summary [redKpi]).score := by
  have h := neutral_zero_weight [neutralKpi] neutralKpi (by simp)
    (by intro k hk; simp at hk; rw [hk]; exact neutralKpi_status) neutralKpi_status
  exact ⟨h.1.2.2.2.2.1, h.1.2.2.2.2.2, h.2 [redKpi] (by simp)⟩

/-- Claim C10 counterexample: appending a NEUTRAL KPI to a list with positive
score need not strictly lower the score.  With 1 RED + 20 NEUTRAL KPIs the
score is round(30/21, 1) = 1.4 > 0, and after appending one more NEUTRAL it is
round(30/22, 1) = 1.4 again — unchanged, because the 1-decimal rounding
absorbs the dilution. -/
theorem neutral_append_strict_counterexample :
    0 < (get_dashboard_kpi_summary (redKpi :: List.replicate 20 neutralKpi)).score ∧
    ¬ ((get_dashboard_kpi_summary
          ((redKpi :: List.replicate 20 neutralKpi) ++ [neutralKpi])).score <
        (get_dashboard_kpi_summary (redKpi :: List.replicate 20 neutralKpi)).score) := by
  have hrep : enrich_kpis (List.replicate 20 neutralKpi) =
      List.replicate 20 (enrichOne neutralKpi) := by
    rw [enrich_kpis_eq_map, List.map_replicate]
  have hcount : ∀ s : Status,
      countStatus s (enrich_kpis (redKpi :: List.replicate 20 neutralKpi)) =
        (if (enrichOne redKpi).healthStatus = s then 1 else 0) +
        (if (enrichOne neutralKpi).healthStatus = s then 20 else 0) := by
    intro s
    have h := countStatus_enrich_middle s [] (List.replicate 20 neutralKpi) redKpi
    simp only [List.nil_append] at h
    rw [h, countStatus_nil, hrep, countStatus_replicate]
    omega
  have hg : countStatus Status.GREEN (enrich_kpis (redKpi :: List.replicate 20 neutralKpi)) = 0 := by
    rw [hcount, redKpi_status, neutralKpi_status]
    simp
  have hy : countStatus Status.YELLOW (enrich_kpis (redKpi :: List.replicate 20 neutralKpi)) = 0 := by
    rw [hcount, redKpi_status, neutralKpi_status]
    simp
  have hr : countStatus Status.RED (enrich_kpis (redKpi :: List.replicate 20 neutralKpi)) = 1 := by
    rw [hcount, redKpi_status, neutralKpi_status]
    simp
  have hs1 : (get_dashboard_kpi_summary (redKpi :: List.replicate 20 neutralKpi)).score = 7/5 := by
    rw [summary_score_eq _ (by simp), hg, hy, hr]
    have hlen : ((redKpi :: List.replicate 20 neutralKpi).length : ℚ) = 21 := by simp
    rw [hlen]
    have harg : ((0:ℕ) : ℚ) * 100 + ((0:ℕ) : ℚ) * 70 + ((1:ℕ) : ℚ) * 30 = 30 := by norm_num
    rw [harg]
    have harg2 : (30:ℚ) / ((21:ℚ) * 100) * 100 = 10/7 := by norm_num
    rw [harg2, pyRoundTo_of_between 1 (10/7) 14 (by norm_num) (by norm_num)]
    norm_num
  have hs2 : (get_dashboard_kpi_summary
      ((redKpi :: List.replicate 20 neutralKpi) ++ [neutralKpi])).score = 7/5 := by
    rw [summary_score_eq _ (by simp)]
    rw [countStatus_enrich_append_one Status.GREEN _ neutralKpi,
        countStatus_enrich_append_one Status.YELLOW _ neutralKpi,
        countStatus_enrich_append_one Status.RED _ neutralKpi,
        neutralKpi_status, hg, hy, hr]
    have hlen : (((redKpi :: List.replicate 20 neutralKpi) ++ [neutralKpi]).length : ℚ) = 22 := by
      simp
    rw [hlen]
    have e1 : (0 + if Status.NEUTRAL = Status.GREEN then 1 else 0 : ℕ) = 0 := by decide
    have e2 : (0 + if Status.NEUTRAL = Status.YELLOW then 1 else 0 : ℕ) = 0 := by decide
    have e3 : (1 + if Status.NEUTRAL = Status.RED then 1 else 0 : ℕ) = 1 := by decide
    rw [e1, e2, e3]
    have harg : ((0:ℕ) : ℚ) * 100 + ((0:ℕ) : ℚ) * 70 + ((1:ℕ) : ℚ) * 30 = 30 := by norm_num
    rw [harg]
    have harg2 : (30:ℚ) / ((22:ℚ) * 100) * 100 = 15/11 := by norm_num
    rw [harg2, pyRoundTo_of_between 1 (15/11) 14 (by norm_num) (by norm_num)]
    norm_num
  rw [hs1, hs2]
  norm_num

/-- The SWOT strength condition as stated by the claim. -/
def isStrength (k : EnrichedKpi) : Prop := k.healthStatus = Status.GREEN

/-- The SWOT weakness condition as stated by the claim. -/
def isWeakness (k : EnrichedKpi) : Prop :=
  k.healthStatus = Status.RED ∧ k.trendDirection ≠ Direction.UP

/-- The SWOT opportunity condition as stated by the claim. -/
def isOpportunity (k : EnrichedKpi) : Prop :=
  (k.healthStatus = Status.YELLOW ∨ k.healthStatus = Status.RED) ∧
    k.trendDirection = Direction.UP

/-- The SWOT threat condition as stated by the claim. -/
def isThreat (k : EnrichedKpi) : Prop :=
  k.healthStatus = Status.RED ∧ k.trendDirection = Direction.DOWN

instance decIsStrength (k : EnrichedKpi) : Decidable (isStrength k) := by
  unfold isStrength
  infer_instance

instance decIsWeakness (k : EnrichedKpi) : Decidable (isWeakness k) := by
  unfold isWeakness
  infer_instance

instance decIsOpportunity (k : EnrichedKpi) : Decidable (isOpportunity k) := by
  unfold isOpportunity
  infer_instance

instance decIsThreat (k : EnrichedKpi) : Decidable (isThreat k) := by
  unfold isThreat
  infer_instance

/-- How many of the four SWOT categories a single enriched KPI lands in. -/
def swotCategoryCount (k : EnrichedKpi) : ℕ :=
  (if isStrength k then 1 else 0) + (if isWeakness k then 1 else 0) +
  (if isOpportunity k then 1 else 0) + (if isThreat k then 1 else 0)

/-- The category-or-single-placeholder wrapping applied to each SWOT list. -/
def orPlaceholder (l : List String) (ph : String) : List String :=
  if l ≠ [] then l else [ph]

lemma swotLoop_eq (l : List EnrichedKpi) :
    swotLoop l = ((l.filter fun k => decide (isStrength k)).map strengthSentence,
      (l.filter fun k => decide (isWeakness k)).map weaknessSentence,
      (l.filter fun k => decide (isOpportunity k)).map opportunitySentence,
      (l.filter fun k => decide (isThreat k)).map threatSentence) := by
  induction l with
  | nil => rfl
  | cons k rest ih =>
    simp only [swotLoop, ih, List.filter_cons]
    rcases hst : k.healthStatus <;> rcases hd : k.trendDirection <;>
      simp [isStrength, isWeakness, isOpportunity, isThreat, hst, hd]

lemma swotCategoryCount_le_two (k : EnrichedKpi) : swotCategoryCount k ≤ 2 := by
  unfold swotCategoryCount
  by_cases h1 : isStrength k <;> by_cases h2 : isWeakness k <;>
    by_cases h3 : isOpportunity k <;> by_cases h4 : isThreat k <;>
    simp only [h1, h2, h3, h4, if_true, if_false, if_pos, if_neg, not_false_iff] <;>
    first
      | omega
      | simp_all [isStrength, isWeakness, isOpportunity, isThreat]

/-- Claim C5: in generate_swot, a KPI is listed under strengths exactly when
its status is GREEN, under weaknesses exactly when RED with direction ≠ UP,
under opportunities exactly when YELLOW-or-RED with direction UP, and under
threats exactly when RED with direction DOWN (each category is the in-order
filter of the enriched list, wrapped by the placeholder rule); a KPI lands in
at most two categories. -/
theorem swot_membership (title department : String) (kpis : List RawKpi)
    (h : kpis ≠ []) :
    (generate_swot title department kpis).strengths =
      orPlaceholder (((enrich_kpis kpis).filter fun k => decide (isStrength k)).map
        strengthSentence) ("No KPIs currently exceeding targets in " ++ department) ∧
    (generate_swot title department kpis).weaknesses =
      orPlaceholder (((enrich_kpis kpis).filter fun k => decide (isWeakness k)).map
        weaknessSentence) ("No critical underperformers identified in " ++ department) ∧
    (generate_swot title department kpis).opportunities =
      orPlaceholder (((enrich_kpis kpis).filter fun k => decide (isOpportunity k)).map
        opportunitySentence)
        ("No significant improvement trends detected yet in " ++ department) ∧
    (generate_swot title department kpis).threats =
      orPlaceholder (((enrich_kpis kpis).filter fun k => decide (isThreat k)).map
        threatSentence) ("No declining KPIs below threshold in " ++ department) ∧
    (∀ k : EnrichedKpi, swotCategoryCount k ≤ 2) := by
  refine ⟨?_, ?_, ?_, ?_, swotCategoryCount_le_two⟩ <;>
    simp only [generate_swot, if_neg h, swotLoop_eq, orPlaceholder]

/-- Witness for C5: a single GREEN KPI yields exactly its strength sentence. -/
theorem swot_membership_witness :
    (generate_swot "T" "D" [demoKpi "G" 120 100 100]).strengths =
      orPlaceholder (((enrich_kpis [demoKpi "G" 120 100 100]).filter
        fun k => decide (isStrength k)).map strengthSentence)
        ("No KPIs currently exceeding targets in " ++ "D") ∧
    (generate_swot "T" "D" [demoKpi "G" 120 100 100]).strengths.length = 1 := by
  have hmem := (swot_membership "T" "D" [demoKpi "G" 120 100 100] (by simp)).1
  have hG : (enrichOne (demoKpi "G" 120 100 100)).healthStatus = Status.GREEN := by
    norm_num [enrichOne, demoKpi, kpiFloats, getFloat, pyFloat,
      EnrichedKpi.healthStatus, calculate_kpi_health]
  refine ⟨hmem, ?_⟩
  rw [hmem]
  have hfil : (enrich_kpis [demoKpi "G" 120 100 100]).filter
      (fun k => decide (isStrength k)) = [enrichOne (demoKpi "G" 120 100 100)] := by
    simp [enrich_kpis, List.filter, isStrength, hG]
  rw [hfil]
  rfl

/-- Claim C6 counterexample: for the empty input list every SWOT category is
the empty list, not a placeholder sentence. -/
theorem swot_empty_input_counterexample :
    (generate_swot "Q3 Overview" "Sales" []).strengths = [] ∧
    (generate_swot "Q3 Overview" "Sales" []).weaknesses = [] ∧
    (generate_swot "Q3 Overview" "Sales" []).opportunities = [] ∧
    (generate_swot "Q3 Overview" "Sales" []).threats = [] :=
  ⟨rfl, rfl, rfl, rfl⟩

/-- Claim C6 (amended): for every NON-empty input list each of the four SWOT
categories is non-empty, and a category with no qualifying KPI holds exactly
the single placeholder sentence naming the department; for the empty input
list all four categories are empty lists. -/
theorem swot_categories_nonempty (title department : String) (kpis : List RawKpi)
    (h : kpis ≠ []) :
    (generate_swot title department kpis).strengths ≠ [] ∧
    (generate_swot title department kpis).weaknesses ≠ [] ∧
    (generate_swot title department kpis).opportunities ≠ [] ∧
    (generate_swot title department kpis).threats ≠ [] ∧
    (((enrich_kpis kpis).filter fun k => decide (isStrength k)) = [] →
      (generate_swot title department kpis).strengths =
        ["No KPIs currently exceeding targets in " ++ department]) ∧
    (((enrich_kpis kpis).filter fun k => decide (isWeakness k)) = [] →
      (generate_swot title department kpis).weaknesses =
        ["No critical underperformers identified in " ++ department]) ∧
    (((enrich_kpis kpis).filter fun k => decide (isOpportunity k)) = [] →
      (generate_swot title department kpis).opportunities =
        ["No significant improvement trends detected yet in " ++ department]) ∧
    (((enrich_kpis kpis).filter fun k => decide (isThreat k)) = [] →
      (generate_swot title department kpis).threats =
        ["No declining KPIs below threshold in " ++ department]) ∧
    (generate_swot title department ([] : List RawKpi)).strengths = [] ∧
    (generate_swot title department ([] : List RawKpi)).weaknesses = [] ∧
    (generate_swot title department ([] : List RawKpi)).opportunities = [] ∧
    (generate_swot title department ([] : List RawKpi)).threats = [] := by
  have hfields : ∀ L : List String, ∀ ph : String, (if L ≠ [] then L else [ph]) ≠ [] := by
    intro L ph
    by_cases hL : L = [] <;> simp [hL]
  refine ⟨?_, ?_, ?_, ?_, ?_, ?_, ?_, ?_, rfl, rfl, rfl, rfl⟩ <;>
    simp only [generate_swot, if_neg h, swotLoop_eq] <;>
    first
      | exact hfields _ _
      | (intro hemp
         simp [hemp])

/-- Witness for C6: one GREEN KPI leaves threats unqualified, so the threat
panel is the placeholder naming the department and all panels are non-empty. -/
theorem swot_categories_nonempty_witness :
    (generate_swot "T" "Sales" [demoKpi "G" 120 100 100]).strengths ≠ [] ∧
    (generate_swot "T" "Sales" [demoKpi "G" 120 100 100]).threats =
      ["No declining KPIs below threshold in " ++ "Sales"] := by
  have h := swot_categories_nonempty "T" "Sales" [demoKpi "G" 120 100 100] (by simp)
  have hG : (enrichOne (demoKpi "G" 120 100 100)).healthStatus = Status.GREEN := by
    norm_num [enrichOne, demoKpi, kpiFloats, getFloat, pyFloat,
      EnrichedKpi.healthStatus, calculate_kpi_health]
  refine ⟨h.1, h.2.2.2.2.2.2.2.1 ?_⟩
  simp [enrich_kpis, List.filter, isThreat, hG]

/-- The claim's threshold table from health_score to overall_rating. -/
def ratingOfScore (hs : ℤ) : String :=
  if hs ≥ 80 then "Excellent"
  else if hs ≥ 60 then "Good"
  else if hs ≥ 40 then "Moderate"
  else "Critical"

lemma enrichOne_name (k : RawKpi) : (enrichOne k).name = k.name := by
  unfold enrichOne
  cases h : kpiFloats k <;> simp

lemma mapM_some_of_forall {α β : Type} (F : α → Option β) (l : List α)
    (h : ∀ x ∈ l, ∃ y, F x = some y) : ∃ ys, l.mapM F = some ys := by
  rw [← List.mapM'_eq_mapM]
  induction l with
  | nil => exact ⟨[], rfl⟩
  | cons a t ih =>
    obtain ⟨y, hy⟩ := h a (List.mem_cons_self a t)
    obtain ⟨ys, hys⟩ := ih (fun x hx => h x (List.mem_cons_of_mem a hx))
    exact ⟨y :: ys, by simp [List.mapM'_cons, hy, hys]⟩

lemma foldl_choice_mem {α : Type} (f : α → α → α) (hf : ∀ b a, f b a = b ∨ f b a = a)
    (t : List α) (b : α) : t.foldl f b = b ∨ t.foldl f b ∈ t := by
  induction t generalizing b with
  | nil => exact Or.inl rfl
  | cons a t ih =>
    rcases ih (f b a) with h | h
    · rw [List.foldl_cons, h]
      rcases hf b a with h2 | h2 <;> rw [h2]
      · exact Or.inl rfl
      · exact Or.inr (List.mem_cons_self _ _)
    · rw [List.foldl_cons]
      exact Or.inr (List.mem_cons_of_mem _ h)

lemma minPctKpi_mem {l : List EnrichedKpi} {x : EnrichedKpi}
    (h : minPctKpi l = some x) : x ∈ l := by
  cases l with
  | nil => simp [minPctKpi] at h
  | cons a t =>
    simp only [minPctKpi, Option.some_inj] at h
    have hpick : ∀ b c : EnrichedKpi,
        (if c.healthPctD 100 < b.healthPctD 100 then c else b) = b ∨
        (if c.healthPctD 100 < b.healthPctD 100 then c else b) = c := by
      intro b c
      by_cases hc : c.healthPctD 100 < b.healthPctD 100 <;> simp [hc]
    have hmem : t.foldl (fun b c => if c.healthPctD 100 < b.healthPctD 100 then c else b) a = a ∨
        t.foldl (fun b c => if c.healthPctD 100 < b.healthPctD 100 then c else b) a ∈ t :=
      foldl_choice_mem _ hpick t a
    rcases hmem with h2 | h2
    · rw [h2] at h
      rw [← h]
      exact List.mem_cons_self _ _
    · rw [← h]
      exact List.mem_cons_of_mem _ h2

lemma maxChangeKpi_mem {l : List EnrichedKpi} {x : EnrichedKpi}
    (h : maxChangeKpi l = some x) : x ∈ l := by
  cases l with
  | nil => simp [maxChangeKpi] at h
  | cons a t =>
    simp only [maxChangeKpi, Option.some_inj] at h
    have hpick : ∀ b c : EnrichedKpi,
        (if c.trendChangePctD 0 > b.trendChangePctD 0 then c else b) = b ∨
        (if c.trendChangePctD 0 > b.trendChangePctD 0 then c else b) = c := by
      intro b c
      by_cases hc : c.trendChangePctD 0 > b.trendChangePctD 0 <;> simp [hc]
    have hmem : t.foldl (fun b c => if c.trendChangePctD 0 > b.trendChangePctD 0 then c else b) a = a ∨
        t.foldl (fun b c => if c.trendChangePctD 0 > b.trendChangePctD 0 then c else b) a ∈ t :=
      foldl_choice_mem _ hpick t a
    rcases hmem with h2 | h2
    · rw [h2] at h
      rw [← h]
      exact List.mem_cons_self _ _
    · rw [← h]
      exact List.mem_cons_of_mem _ h2

lemma greenSummaryPart_ok (green : List EnrichedKpi)
    (h : ∀ e ∈ green, ∃ n, nameKey e = some n) :
    ∃ gp, greenSummaryPart green = some gp := by
  unfold greenSummaryPart
  by_cases hg : green = []
  · rw [if_neg (by simp [hg])]
    exact ⟨[], rfl⟩
  · rw [if_pos hg]
    obtain ⟨ns, hns⟩ := mapM_some_of_forall nameKey (green.take 2)
      (fun x hx => h x (List.mem_of_mem_take hx))
    exact ⟨_, by rw [show (green.take 2).mapM nameKey = some ns from hns]; rfl⟩

lemma redSummaryPart_ok (red : List EnrichedKpi)
    (h : ∀ e ∈ red, ∃ n, nameKey e = some n) :
    ∃ rp, redSummaryPart red = some rp := by
  unfold redSummaryPart
  by_cases hg : red = []
  · rw [if_neg (by simp [hg])]
    exact ⟨[], rfl⟩
  · rw [if_pos hg]
    obtain ⟨ns, hns⟩ := mapM_some_of_forall nameKey (red.take 2)
      (fun x hx => h x (List.mem_of_mem_take hx))
    exact ⟨_, by rw [show (red.take 2).mapM nameKey = some ns from hns]; rfl⟩

lemma riskLine_ok (k : EnrichedKpi) (h : ∃ n, nameKey k = some n) :
    ∃ y, riskLine k = some y := by
  obtain ⟨n, hn⟩ := h
  exact ⟨_, by unfold riskLine; rw [hn]; rfl⟩

lemma worstRecPart_ok (red : List EnrichedKpi)
    (h : ∀ e ∈ red, ∃ n, nameKey e = some n) :
    ∃ r1, worstRecPart red = some r1 := by
  unfold worstRecPart
  cases hmin : minPctKpi red with
  | none => exact ⟨[], rfl⟩
  | some worst =>
    obtain ⟨n, hn⟩ := h worst (minPctKpi_mem hmin)
    exact ⟨_, by simp only [hn]; rfl⟩

lemma bestRecPart_ok (improving : List EnrichedKpi)
    (h : ∀ e ∈ improving, ∃ n, nameKey e = some n) :
    ∃ r2, bestRecPart improving = some r2 := by
  unfold bestRecPart
  cases hmax : maxChangeKpi improving with
  | none => exact ⟨[], rfl⟩
  | some best =>
    obtain ⟨n, hn⟩ := h best (maxChangeKpi_mem hmax)
    exact ⟨_, by simp only [hn]; rfl⟩

lemma priorityLine_ok (red : List EnrichedKpi) (total : ℕ)
    (h : ∀ e ∈ red, ∃ n, nameKey e = some n) :
    ∃ p, priorityLine red total = some p := by
  unfold priorityLine
  cases red with
  | nil => exact ⟨_, rfl⟩
  | cons r rest =>
    obtain ⟨n, hn⟩ := h r (List.mem_cons_self _ _)
    exact ⟨_, by simp only [hn]; rfl⟩

lemma rule_based_summary_ok (title department : String) (l : List EnrichedKpi)
    (swot : SwotResult) (commentary : String) (hl : l ≠ [])
    (h : ∀ e ∈ l, e.name ≠ none) :
    ∃ b, _rule_based_summary title department l swot commentary = some b ∧
      b.source = "Rule-Based Engine (set ANTHROPIC_API_KEY for AI-powered insights)" ∧
      b.overall_rating = ratingOfScore (swot.health_score.getD 0) := by
  have hname : ∀ e ∈ l, ∃ n, nameKey e = some n := by
    intro e he
    rcases Option.ne_none_iff_exists.mp (h e he) with ⟨n, hn⟩
    exact ⟨n, hn.symm⟩
  have htot : l.length ≠ 0 := fun h0 => hl (List.length_eq_zero.mp h0)
  have hsub : ∀ p : EnrichedKpi → Bool, ∀ e ∈ l.filter p, ∃ n, nameKey e = some n :=
    fun p e he => hname e (List.mem_of_mem_filter he)
  obtain ⟨gp, hgp⟩ := greenSummaryPart_ok
    (l.filter fun k => decide (k.healthStatus = Status.GREEN)) (hsub _)
  obtain ⟨rp, hrp⟩ := redSummaryPart_ok
    (l.filter fun k => decide (k.healthStatus = Status.RED)) (hsub _)
  obtain ⟨rkp, hrkp⟩ := mapM_some_of_forall riskLine
    (((l.filter fun k => decide (k.trendDirection = Direction.DOWN)) ++
      (l.filter fun k => decide (k.healthStatus = Status.RED))).take 3)
    (by
      intro x hx
      apply riskLine_ok
      apply hname
      rcases List.mem_append.mp (List.mem_of_mem_take hx) with h2 | h2 <;>
        exact List.mem_of_mem_filter h2)
  obtain ⟨r1, hr1⟩ := worstRecPart_ok
    (l.filter fun k => decide (k.healthStatus = Status.RED)) (hsub _)
  obtain ⟨r2, hr2⟩ := bestRecPart_ok
    (l.filter fun k => decide (k.trendDirection = Direction.UP)) (hsub _)
  obtain ⟨pr, hpr⟩ := priorityLine_ok
    (l.filter fun k => decide (k.healthStatus = Status.RED)) l.length (hsub _)
  simp only [_rule_based_summary]
  rw [if_neg htot]
  rw [hgp, hrp, hrkp, hr1, hr2, hpr]
  exact ⟨_, rfl, rfl, rfl⟩

/-- A RED-classifying KPI with no 'name' key. -/
def namelessRedKpi : RawKpi :=
  { name := none, value := some (PyVal.num 0), target := some (PyVal.num 100),
    previousValue := some (PyVal.num 0), extra := [] }

/-- Claim C7 (amended): with no ANTHROPIC_API_KEY configured, for every KPI
list whose entries all carry a name, generate_ai_summary returns a brief whose
source is the rule-based tag and whose overall_rating is the ≥80 Excellent /
≥60 Good / ≥40 Moderate / else Critical mapping of the SWOT health_score
(read as 0 when the SWOT dict has no health_score, i.e. for empty input). -/
theorem ai_summary_rule_based (title department : String) (kpis : List RawKpi)
    (commentary : String) (hn : ∀ k ∈ kpis, k.name ≠ none) :
    ∃ b : Brief, generate_ai_summary title department kpis commentary = some b ∧
      (b.source = "Rule-Based Engine" ∨
       b.source = "Rule-Based Engine (set ANTHROPIC_API_KEY for AI-powered insights)") ∧
      b.overall_rating =
        ratingOfScore (((generate_swot title department kpis).health_score).getD 0) := by
  by_cases hk : kpis = []
  · subst hk
    exact ⟨_, rfl, Or.inl rfl, by norm_num [ratingOfScore, generate_swot]⟩
  · have hl : enrich_kpis kpis ≠ [] := by
      intro h0
      apply hk
      have := enrich_kpis_length kpis
      rw [h0] at this
      exact List.length_eq_zero.mp this.symm
    have hnames : ∀ e ∈ enrich_kpis kpis, e.name ≠ none := by
      intro e he
      rw [enrich_kpis_eq_map] at he
      rcases List.mem_map.mp he with ⟨k, hkk, rfl⟩
      rw [enrichOne_name]
      exact hn k hkk
    obtain ⟨b, hb, hsrc, hrat⟩ := rule_based_summary_ok title department (enrich_kpis kpis)
      (generate_swot title department kpis) commentary hl hnames
    exact ⟨b, hb, Or.inr hsrc, hrat⟩

/-- Witness for C7 at a named single-KPI list. -/
theorem ai_summary_rule_based_witness :
    ∃ b : Brief, generate_ai_summary "Q3" "Sales" [demoKpi "Revenue" 4800000 5000000 4500000] "" =
      some b ∧
      (b.source = "Rule-Based Engine" ∨
       b.source = "Rule-Based Engine (set ANTHROPIC_API_KEY for AI-powered insights)") ∧
      b.overall_rating =
        ratingOfScore (((generate_swot "Q3" "Sales"
          [demoKpi "Revenue" 4800000 5000000 4500000]).health_score).getD 0) := by
  apply ai_summary_rule_based
  intro k hk
  simp only [List.mem_singleton] at hk
  rw [hk]
  simp [demoKpi]

/-- Claim C7 counterexample: with no credential configured, a KPI list with a
RED-classifying entry that lacks a 'name' key makes generate_ai_summary raise
(KeyError on red[0]['name'], modelled as none) instead of returning a
rule-based result. -/
theorem ai_summary_keyerror_counterexample :
    generate_ai_summary "T" "D" [namelessRedKpi] "" = none := by
  have hred : (enrichOne namelessRedKpi).healthStatus = Status.RED := by
    norm_num [enrichOne, namelessRedKpi, kpiFloats, getFloat, pyFloat,
      EnrichedKpi.healthStatus, calculate_kpi_health]
  have hgreen : (enrich_kpis [namelessRedKpi]).filter
      (fun k => decide (k.healthStatus = Status.GREEN)) = [] := by
    simp [enrich_kpis, List.filter_cons, hred]
  have hredfil : (enrich_kpis [namelessRedKpi]).filter
      (fun k => decide (k.healthStatus = Status.RED)) = [enrichOne namelessRedKpi] := by
    simp [enrich_kpis, List.filter_cons, hred]
  have hgsp : greenSummaryPart ([] : List EnrichedKpi) = some [] := rfl
  have hrsp : redSummaryPart [enrichOne namelessRedKpi] = none := rfl
  simp only [generate_ai_summary, _rule_based_summary]
  rw [if_neg (by simp [enrich_kpis] : ¬(enrich_kpis [namelessRedKpi]).length = 0)]
  rw [hgreen, hredfil, hgsp, hrsp]
  rfl

end BIPortal
